import Mathlib

/-!
Verification development for the connection resolution engine of
`src/arm/util/connections.py`.

The Python module is shallowly embedded below:

* the Port Usage Registry (`conf_handler`, `getPortUsage`, module lines
  36-76) becomes a pure transformer over an association list modelling the
  `PORT_USAGE` dictionary, with the `log.notice` call surfaced as an
  optional message;
* the `ConnectionResolver` polling thread becomes a state record plus a
  `runCycle` step function modelling one iteration of the body of
  `ConnectionResolver.run` (lines 245-307), with the outcome of the
  external `connection.get_connections` query supplied as an input;
* the `AppResolver` becomes a state record; `resolve` followed by its
  worker `_queryApplications` (lines 410-530) becomes `resolveRun`, with
  the raw output lines of the external `lsof` invocation supplied as an
  input and `threading.Condition.notifyAll` surfaced as a boolean effect.

Wall-clock quantities (query durations, timestamps, rates) are modelled as
rationals; Python floats are idealised as exact arithmetic.  `time.sleep`
and `time.time` are idealised: a sleep of two seconds contributes exactly
two seconds to a measured duration.
-/

/-! ## Python dictionary primitives

Python `dict`s are modelled as insertion-ordered association lists with
unique keys: lookup scans for the key, assignment replaces in place or
appends. -/

/-- A Python dictionary key: `PORT_USAGE` keys are produced by `str`,
while `getPortUsage` is handed whatever the caller supplies, so keys are
either strings or integers (Python `str` and `int` never compare equal as
dict keys). -/
inductive PyKey where
  | str (s : String)
  | int (n : Int)
deriving DecidableEq

/-- Lookup `m.get(k)` / `m[k]` lookup on an association-list dictionary. -/
def dictGet {α β : Type} [DecidableEq α] (m : List (α × β)) (k : α) : Option β :=
  (m.find? (fun e => decide (e.1 = k))).map (fun e => e.2)

/-- Membership test `k in m` on a dictionary. -/
def dictContains {α β : Type} [DecidableEq α] (m : List (α × β)) (k : α) : Bool :=
  (dictGet m k).isSome

/-- Assignment `m[k] = v` on a dictionary: replace in place if the key is
present, append otherwise. -/
def dictSet {α β : Type} [DecidableEq α] (m : List (α × β)) (k : α) (v : β) :
    List (α × β) :=
  if dictContains m k then m.map (fun e => if e.1 = k then (k, v) else e)
  else m ++ [(k, v)]

/-! ## Python string primitives

String processing is carried out over character lists (with `String.mk`
repacking), keeping every definition kernel-computable. -/

/-- Python `str.isdigit`: nonempty and all digit characters. -/
def pyIsdigit (s : String) : Bool :=
  !s.toList.isEmpty && s.toList.all Char.isDigit

/-- Splits a character list at each character satisfying `p`, keeping
empty chunks. -/
def splitByAux (p : Char → Bool) (cs acc : List Char) : List (List Char) :=
  match cs with
  | [] => [acc.reverse]
  | c :: rest =>
    if p c then acc.reverse :: splitByAux p rest []
    else splitByAux p rest (c :: acc)

/-- Python `str.split()` with no argument: whitespace-separated words,
empty chunks dropped. -/
def pySplitWords (s : String) : List String :=
  ((splitByAux (fun c => c.isWhitespace) s.toList []).filter
    (fun w => w ≠ [])).map String.mk

/-- Splits at each non-overlapping occurrence of the (nonempty) separator,
scanning left to right; `fuel` bounds the recursion and is instantiated
with the list length, which the scan never exceeds. -/
def splitOnListAux (sep : List Char) : Nat → List Char → List Char → List (List Char)
  | _, [], acc => [acc.reverse]
  | 0, cs, acc => [acc.reverse ++ cs]
  | fuel + 1, c :: rest, acc =>
    if sep.isPrefixOf (c :: rest) then
      acc.reverse :: splitOnListAux sep fuel ((c :: rest).drop sep.length) []
    else
      splitOnListAux sep fuel rest (c :: acc)

/-- Python `str.split(sep)` for a nonempty separator: chunks between
occurrences, empties kept. -/
def pySplitOn (s sep : String) : List String :=
  (splitOnListAux sep.toList s.toList.length s.toList []).map String.mk

/-- Decimal value of a nonempty all-digit character list, `none` otherwise. -/
def digitsToNat (cs : List Char) : Option Nat :=
  if !cs.isEmpty && cs.all Char.isDigit then
    some (cs.foldl (fun a c => 10 * a + (c.toNat - 48)) 0)
  else none

/-- Python `int(s)` on a base-10 literal: an optional sign followed by one
or more digits; raises `ValueError` (here `none`) otherwise. -/
def pyInt (s : String) : Option Int :=
  match s.toList with
  | [] => none
  | c :: rest =>
    if c = '-' then (digitsToNat rest).map (fun n => -(n : Int))
    else if c = '+' then (digitsToNat rest).map (fun n => (n : Int))
    else (digitsToNat (c :: rest)).map (fun n => (n : Int))

/-! ## Port Usage Registry (module lines 36-76) -/

/-- The `PORT_USAGE` module-level dictionary. -/
abbrev PortUsageMap := List (PyKey × String)

/-- Embedding of `conf_handler(key, value)` (lines 36-59).  The Python
function mutates the global `PORT_USAGE` and reports malformed entries via
`log.notice`; here it maps the dictionary state to the new state paired
with the logged message, if any.  Keys are stored with `PORT_USAGE[s] = v`
where `s` is a *string* (`portEntry` itself, or `str(port)` for ranges). -/
def conf_handler (portUsage : PortUsageMap) (key value : String) :
    PortUsageMap × Option String :=
  if "port.label.".toList.isPrefixOf key.toList then
    let portEntry := String.mk (key.toList.drop 11)
    match portEntry.toList.findIdx? (fun c => c = '-') with
    | none =>
      -- single port
      if pyIsdigit portEntry then
        (dictSet portUsage (PyKey.str portEntry) value, none)
      else
        (portUsage, some ("Port value isn't numeric for entry: " ++ key))
    | some divIndex =>
      -- range of ports (inclusive); int() failure and minPort > maxPort
      -- both land in the same except ValueError handler
      match pyInt (String.mk (portEntry.toList.take divIndex)),
            pyInt (String.mk (portEntry.toList.drop (divIndex + 1))) with
      | some minPort, some maxPort =>
        if minPort > maxPort then
          (portUsage, some ("Unable to parse port range for entry: " ++ key))
        else
          ((((List.range (maxPort + 1 - minPort).toNat).map
              (fun i => minPort + (i : Int)))).foldl
            (fun m2 port => dictSet m2 (PyKey.str (toString port)) value)
            portUsage, none)
      | _, _ => (portUsage, some ("Unable to parse port range for entry: " ++ key))
  else (portUsage, none)

/-- Embedding of `getPortUsage(port)` (lines 67-76): a raw
`PORT_USAGE.get(port)` on whatever key the caller passes. -/
def getPortUsage (portUsage : PortUsageMap) (port : PyKey) : Option String :=
  dictGet portUsage port

/-- The `PORT_USAGE` state produced by feeding a sequence of configuration
entries through `conf_handler`, starting from the empty dictionary. -/
def applyConfig (entries : List (String × String)) : PortUsageMap :=
  entries.foldl (fun m e => (conf_handler m e.1 e.2).1) []

/-! ## ConnectionResolver (lines 125-365)

The resolver is a `threading.Thread` whose `run` method loops until
`_halt`.  Its mutable attributes form the state record below; the body of
one loop iteration that actually attempts a poll (lines 245-307, i.e. the
part after the pause/min-wait branch, which merely sleeps and retries) is
the step function `runCycle`.  The outcome of the external
`connection.get_connections` call — failure, or success after a given
query duration with a given connection list — is an input of the step. -/

/-- One connection, as cached by the resolver: the tuple
`(conn.local_address, conn.local_port, conn.remote_address,
conn.remote_port)` built on line 257. -/
structure ConnectionRecord where
  localAddress : String
  localPort : Nat
  remoteAddress : String
  remotePort : Nat
deriving DecidableEq

/-- Constant `RESOLVER_FAILURE_TOLERANCE` (line 32). -/
def RESOLVER_FAILURE_TOLERANCE : Nat := 3

/-- The mutable attributes of a `ConnectionResolver` instance
(`__init__`, lines 167-210).  Underscore prefixes of the Python names are
dropped. -/
structure ConnectionResolver where
  processName : String
  processPid : String
  resolveRate : Option ℚ
  handle : String
  defaultRate : ℚ
  lastLookup : ℚ
  overwriteResolver : Option String
  defaultResolver : Option String
  resolverOptions : List String
  connections : List ConnectionRecord
  resolutionCounter : Nat
  isPaused : Bool
  halt : Bool
  subsiquentFailures : Nat
  resolverBlacklist : List String
  rateThresholdBroken : Nat
deriving DecidableEq

/-- Constructor `ConnectionResolver.__init__` (lines 167-210).  The
`queries.connections.minRate` config default is 5 (line 62); the resolver
candidates come from the external `connection.get_system_resolvers()` and
are a parameter here; `defaultResolver` is their first element when any
exist (lines 197-198). -/
def ConnectionResolver.init (processName processPid : String)
    (resolveRate : Option ℚ) (handle : Option String)
    (resolverOptions : List String) : ConnectionResolver :=
  { processName := processName
    processPid := processPid
    resolveRate := resolveRate
    handle := handle.getD processName
    defaultRate := 5
    lastLookup := -1
    overwriteResolver := none
    defaultResolver := resolverOptions.head?
    resolverOptions := resolverOptions
    connections := []
    resolutionCounter := 0
    isPaused := false
    halt := false
    subsiquentFailures := 0
    resolverBlacklist := []
    rateThresholdBroken := 0 }

/-- Outcome of the external `connection.get_connections` query of one poll:
either it returns a connection list after `queryDuration` seconds of query
work, or it raises (`ValueError`/`IOError`). -/
inductive QueryOutcome where
  | success (queryDuration : ℚ) (conns : List ConnectionRecord)
  | failure
deriving DecidableEq

/-- One poll attempt of `ConnectionResolver.run` (lines 245-307), at
wall-clock time `now`.  The returned boolean records whether a query was
performed (`False` exactly on the no-resolver branch of lines 249-251,
which only stamps `lastLookup` "to avoid a busy wait").

Note the stray `time.sleep(2)` on line 255: it sits *inside* the timed
region `resolveStart .. time.time() - resolveStart`, so the measured
`lookupTime` is the query duration plus two seconds.

On success (lines 257-274): the cache is replaced wholesale, the counter
is bumped, the adaptive-rate logic runs on `newMinDefaultRate = 100 *
lookupTime` (raising `defaultRate` to `newMinDefaultRate + 0.5` only once
`_rateThresholdBroken >= 3`, otherwise incrementing it; resetting it to 0
when the threshold is not exceeded), and `_subsiquentFailures` is zeroed
only when the default resolver was in use.

On failure (lines 283-305): only when the default resolver was in use,
`_subsiquentFailures` is bumped and, upon reaching
`RESOLVER_FAILURE_TOLERANCE`, the resolver is blacklisted, the counter
zeroed, and the first non-blacklisted entry of `resolverOptions` (or
`None`) becomes the new default.

The `finally` clause (line 307) stamps `lastLookup = now` on both paths. -/
def runCycle (s : ConnectionResolver) (now : ℚ) (outcome : QueryOutcome) :
    ConnectionResolver × Bool :=
  let isDefault := s.overwriteResolver.isNone
  let resolver := if isDefault then s.defaultResolver else s.overwriteResolver
  match resolver with
  | none => ({ s with lastLookup := now }, false)
  | some r =>
    match outcome with
    | .success queryDuration conns =>
      let lookupTime := queryDuration + 2
      let s1 := { s with connections := conns,
                         resolutionCounter := s.resolutionCounter + 1 }
      let newMinDefaultRate := 100 * lookupTime
      let s2 :=
        if s1.defaultRate < newMinDefaultRate then
          if 3 ≤ s1.rateThresholdBroken then
            { s1 with defaultRate := newMinDefaultRate + 1/2 }
          else
            { s1 with rateThresholdBroken := s1.rateThresholdBroken + 1 }
        else
          { s1 with rateThresholdBroken := 0 }
      let s3 := if isDefault then { s2 with subsiquentFailures := 0 } else s2
      ({ s3 with lastLookup := now }, true)
    | .failure =>
      let s3 :=
        if isDefault then
          let sf := { s with subsiquentFailures := s.subsiquentFailures + 1 }
          if RESOLVER_FAILURE_TOLERANCE ≤ sf.subsiquentFailures then
            let blacklist := sf.resolverBlacklist ++ [r]
            { sf with resolverBlacklist := blacklist
                      subsiquentFailures := 0
                      defaultResolver :=
                        sf.resolverOptions.find? (fun x => decide (x ∉ blacklist)) }
          else sf
        else s
      ({ s3 with lastLookup := now }, true)

/-- Iterated poll attempts with a fixed clock value and outcome. -/
def iterCycle (s : ConnectionResolver) (now : ℚ) (outcome : QueryOutcome) :
    Nat → ConnectionResolver
  | 0 => s
  | n + 1 => (runCycle (iterCycle s now outcome n) now outcome).1

/-- Method `ConnectionResolver.getConnections` (lines 309-316): an empty list once
halted, otherwise `list(self._connections)` — a snapshot copy of the
cache (copying is the identity on immutable lists). -/
def ConnectionResolver.getConnections (s : ConnectionResolver) :
    List ConnectionRecord :=
  if s.halt then [] else s.connections

/-- Method `ConnectionResolver.getResolutionCount` (lines 318-324). -/
def ConnectionResolver.getResolutionCount (s : ConnectionResolver) : Nat :=
  s.resolutionCounter

/-- Method `ConnectionResolver.setOverwriteResolver` (lines 220-229). -/
def ConnectionResolver.setOverwriteResolver (s : ConnectionResolver)
    (overwriteResolver : Option String) : ConnectionResolver :=
  { s with overwriteResolver := overwriteResolver }

/-- Method `ConnectionResolver.stop` (lines 357-365): sets `_halt` (the
`notifyAll` only wakes the loop's own timed wait). -/
def ConnectionResolver.stop (s : ConnectionResolver) : ConnectionResolver :=
  { s with halt := true }

/-! ## AppResolver (lines 367-530)

State record for the `AppResolver` instance attributes, plus an embedding
of `resolve` and its worker `_queryApplications`.  Ports and the cached
`(iPort, oPort, cmd, pid)` entries are strings, exactly as produced by the
`lsof` output parsing.  The worker's `self._cond.notifyAll()` calls are
surfaced as a boolean "waiters were woken" effect; a Python exception
escaping the worker thread (the tuple-unpack `ValueError` or the `[1]`
`IndexError` in the parsing, which are uncaught) is an `Except.error`. -/

/-- One parsed lsof entry: `(iPort, oPort, cmd, pid)` (line 497). -/
abbrev AppEntry := String × String × String × String

/-- The `queryResults` dictionary: port → list of entries. -/
abbrev PortMap := List (String × List AppEntry)

/-- Mutable attributes of an `AppResolver` (`__init__`, lines 374-387).
`failureCount` is `-1` once any query has succeeded. -/
structure AppResolver where
  scriptName : String
  queryResults : PortMap
  isResolving : Bool
  failureCount : Int
deriving DecidableEq

/-- Constructor `AppResolver.__init__` (lines 374-387); `scriptName` defaults to
`"python"`. -/
def AppResolver.init (scriptName : String) : AppResolver :=
  { scriptName := scriptName
    queryResults := []
    isResolving := false
    failureCount := 0 }

/-- Python truthiness of the `system.call` result: `None` or an empty line
list are both falsy (`if not lsofResults`). -/
def pyFalsyLines : Option (List String) → Bool
  | none => true
  | some l => l.isEmpty

/-- One line of the `lsof` output parsing loop (lines 480-505), threading
the `(results, ourConnection)` pair.  `line.split()` keeps nonempty
whitespace-separated words; only 10-column lines ending in
`"(ESTABLISHED)"` are considered.  `iPort, oPort = portMap.split("->")`
raises `ValueError` when the split does not yield exactly two parts, and
`.split(":")[1]` raises `IndexError` when a part has no colon — both
uncaught, so they kill the worker (`Except.error`).  An entry whose pid is
our own process has its command relabelled to `scriptName` and is
remembered as `ourConnection` (lines 491-494); numeric-port entries are
registered under each of their two ports that was requested
(lines 496-505). -/
def processLine (selfPid scriptName : String) (ports : List String)
    (acc : PortMap × Option (String × String)) (line : String) :
    Except Unit (PortMap × Option (String × String)) :=
  let lineComp := pySplitWords line
  if lineComp.length = 10 ∧ lineComp.getD 9 "" = "(ESTABLISHED)" then
    let cmd0 := lineComp.getD 0 ""
    let pid := lineComp.getD 1 ""
    let portMapField := lineComp.getD 8 ""
    let arrowParts := pySplitOn portMapField "->"
    if arrowParts.length = 1 then .ok acc  -- no "->" in portMap
    else if arrowParts.length ≠ 2 then .error ()  -- unpack ValueError
    else
      let iParts := pySplitOn (arrowParts.getD 0 "") ":"
      let oParts := pySplitOn (arrowParts.getD 1 "") ":"
      if iParts.length < 2 ∨ oParts.length < 2 then .error ()  -- IndexError
      else
        let iPort := iParts.getD 1 ""
        let oPort := oParts.getD 1 ""
        let isOurs := pid = selfPid
        let cmd := if isOurs then scriptName else cmd0
        let ourConn := if isOurs then some (iPort, oPort) else acc.2
        if pyIsdigit iPort && pyIsdigit oPort then
          let newEntry : AppEntry := (iPort, oPort, cmd, pid)
          let res := [iPort, oPort].foldl (fun r portMatch =>
            if portMatch ∈ ports then
              match dictGet r portMatch with
              | some lst => dictSet r portMatch (lst ++ [newEntry])
              | none => dictSet r portMatch [newEntry]
            else r) acc.1
          .ok (res, ourConn)
        else .ok (acc.1, ourConn)
  else .ok acc

/-- Removal of the spurious `sh` entry the lsof invocation itself creates
(lines 507-519): for each of our own connection's two ports, if it is a
result key, the first entry whose command is `"sh"` is deleted. -/
def removeShEntries (results : PortMap) :
    Option (String × String) → PortMap
  | none => results
  | some (a, b) =>
    [a, b].foldl (fun r ourPort =>
      match dictGet r ourPort with
      | none => r
      | some lst =>
        match lst.findIdx? (fun e => e.2.2.1 = "sh") with
        | none => r
        | some i => dictSet r ourPort (lst.eraseIdx i)) results

/-- The cache-reuse scan of lines 461-464: reuse cached results where
possible (the `results` seed), collect the remaining ports as the lsof
arguments. -/
def cacheScan (cache : PortMap) (ports : List String) : PortMap × List String :=
  ports.foldl (fun (acc : PortMap × List String) port =>
    match dictGet cache port with
    | some v => (dictSet acc.1 port v, acc.2)
    | none => (acc.1, acc.2 ++ [port])) ([], [])

/-- The `lsofResults` value of lines 466-468: when every port was cached
no lsof command is issued and the result is `None`; otherwise it is the
outcome of the `system.call`. -/
def effectiveLsof (lsofArgs : List String) (lsofCall : Option (List String)) :
    Option (List String) :=
  if lsofArgs = [] then none else lsofCall

/-- The parsing stage (lines 476-519): with a truthy line list, fold
`processLine` over the lines and remove the spurious `sh` entries;
otherwise the reuse seed passes through unchanged (the `elif` guard
fails). -/
def parseLsof (selfPid scriptName : String) (ports : List String)
    (results0 : PortMap) : Option (List String) → Except Unit PortMap
  | none => .ok results0
  | some lines =>
    if lines = [] then .ok results0
    else
      match lines.foldlM (processLine selfPid scriptName ports)
          (results0, (none : Option (String × String))) with
      | .error e => .error e
      | .ok st => .ok (removeShEntries st.1 st.2)

/-- Worker `AppResolver._queryApplications(ports)` (lines 425-530), with the raw
line list returned by the external `system.call("lsof -nP ...")` supplied
as `lsofCall` (it is only consulted when some port misses the cache, since
otherwise no lsof command is issued and `lsofResults` is `None`).

Returns the new state paired with whether `notifyAll` woke `getResults`
waiters; `Except.error` is an uncaught parsing exception killing the
worker thread before it touched the instance state.

* empty port list (lines 440-451): clear the cache, drop the in-flight
  flag, wake waiters;
* falsy lsof result while no success was ever recorded (lines 470-475):
  bump `failureCount`, drop the in-flight flag, return *without* waking
  waiters;
* otherwise (lines 476-530): parse (when the result is truthy), then
  commit: `failureCount = -1`, cache replaced wholesale by the computed
  results, in-flight flag dropped, waiters woken. -/
def queryApplications (selfPid : String) (lsofCall : Option (List String))
    (s : AppResolver) (ports : List String) :
    Except Unit (AppResolver × Bool) :=
  if ports = [] then
    .ok ({ s with queryResults := [], isResolving := false }, true)
  else
    if pyFalsyLines (effectiveLsof (cacheScan s.queryResults ports).2 lsofCall) = true
        ∧ s.failureCount ≠ -1 then
      .ok ({ s with failureCount := s.failureCount + 1, isResolving := false },
           false)
    else
      match parseLsof selfPid s.scriptName ports (cacheScan s.queryResults ports).1
          (effectiveLsof (cacheScan s.queryResults ports).2 lsofCall) with
      | .error e => .error e
      | .ok results =>
        .ok ({ s with failureCount := -1
                      queryResults := results
                      isResolving := false }, true)

/-- Method `AppResolver.resolve(ports)` (lines 410-423) composed with the worker
it spawns, run to completion: when `failureCount < 3` the call sets
`isResolving`, spawns `_queryApplications`, and the worker runs; otherwise
it is a silent no-op.  Result: final state, whether a worker was spawned,
and whether waiters were woken.  A worker killed by a parse exception
leaves the state as the spawn left it (`isResolving` still set). -/
def resolveRun (selfPid : String) (lsofCall : Option (List String))
    (s : AppResolver) (ports : List String) : AppResolver × Bool × Bool :=
  if s.failureCount < 3 then
    match queryApplications selfPid lsofCall { s with isResolving := true } ports with
    | .ok (s2, notified) => (s2, true, notified)
    | .error _ => ({ s with isResolving := true }, true, false)
  else (s, false, false)

/-- Method `AppResolver.getResults` (lines 389-408): after the optional bounded
wait, a snapshot `dict(self.queryResults)` of the cache. -/
def AppResolver.getResults (s : AppResolver) : PortMap :=
  s.queryResults

/-- The externally drivable operations of an `AppResolver`: a `resolve`
call (with its worker's lsof outcome) or a `getResults` read. -/
inductive AppOp where
  | resolveOp (ports : List String) (lsofCall : Option (List String))
  | getResultsOp
deriving DecidableEq

/-- State transition of one operation: `getResults` only reads. -/
def appStep (selfPid : String) (s : AppResolver) : AppOp → AppResolver
  | .resolveOp ports lsofCall => (resolveRun selfPid lsofCall s ports).1
  | .getResultsOp => s

/-! ## Worker scheduling model for the in-flight question

`resolve` (lines 419-423) spawns a fresh worker thread on every call with
`failureCount < 3`; nothing consults `isResolving` before spawning.  The
record below counts workers that have been spawned and have not yet
finished; `spawnResolve` is the caller-side effect of `resolve`, and
`workerCommit` is the final critical section of a worker that reached the
commit block (lines 521-525), which replaces the cache wholesale with that
worker's own computed results dictionary. -/

structure AppSched where
  res : AppResolver
  inFlightWorkers : Nat
deriving DecidableEq

/-- The caller-side effect of `AppResolver.resolve` (lines 419-423): when
`failureCount < 3`, set the in-flight flag and spawn one more worker —
regardless of whether one is already in flight. -/
def spawnResolve (st : AppSched) : AppSched :=
  if st.res.failureCount < 3 then
    { res := { st.res with isResolving := true }
      inFlightWorkers := st.inFlightWorkers + 1 }
  else st

/-- The commit block of a worker (lines 521-525): wholesale replacement of
the cache by this worker's `results`, `failureCount = -1`, flag dropped;
the worker leaves the in-flight population. -/
def workerCommit (st : AppSched) (results : PortMap) : AppSched :=
  { res := { st.res with failureCount := -1
                         queryResults := results
                         isResolving := false }
    inFlightWorkers := st.inFlightWorkers - 1 }

/-! ## Theorems

Every claim of the specification audit is settled below; helper lemmas
about single poll steps come first. -/

/-- Helper: a poll attempt with no resolver available (lines 249-251) only
stamps the attempt time and performs no query. -/
theorem runCycle_noResolver (s : ConnectionResolver) (now : ℚ) (o : QueryOutcome)
    (hov : s.overwriteResolver = none) (hdef : s.defaultResolver = none) :
    runCycle s now o = ({ s with lastLookup := now }, false) := by
  simp [runCycle, hov, hdef]

/-- Helper: a successful default-backend poll whose measured time breaks
the rate threshold while the debounce count is still below 3 leaves the
rate alone and bumps the debounce count. -/
theorem runCycle_success_slow (s : ConnectionResolver) (r : String) (now t : ℚ)
    (conns : List ConnectionRecord)
    (hov : s.overwriteResolver = none) (hdef : s.defaultResolver = some r)
    (hb : s.rateThresholdBroken < 3) (hr : s.defaultRate < 100 * (t + 2)) :
    runCycle s now (QueryOutcome.success t conns) =
      ({ s with connections := conns
                resolutionCounter := s.resolutionCounter + 1
                rateThresholdBroken := s.rateThresholdBroken + 1
                subsiquentFailures := 0
                lastLookup := now }, true) := by
  simp [runCycle, hov, hdef, hr, Nat.not_le.mpr hb]

/-- Helper: a successful default-backend poll breaking the threshold with
the debounce count at 3 or above raises the rate to the measured
`newMinDefaultRate + 0.5`. -/
theorem runCycle_success_raise (s : ConnectionResolver) (r : String) (now t : ℚ)
    (conns : List ConnectionRecord)
    (hov : s.overwriteResolver = none) (hdef : s.defaultResolver = some r)
    (hb : 3 ≤ s.rateThresholdBroken) (hr : s.defaultRate < 100 * (t + 2)) :
    runCycle s now (QueryOutcome.success t conns) =
      ({ s with connections := conns
                resolutionCounter := s.resolutionCounter + 1
                defaultRate := 100 * (t + 2) + 1/2
                subsiquentFailures := 0
                lastLookup := now }, true) := by
  simp [runCycle, hov, hdef, hr, hb]

/-- Helper: a successful default-backend poll whose measured time does not
break the threshold resets the debounce count to 0. -/
theorem runCycle_success_fast (s : ConnectionResolver) (r : String) (now t : ℚ)
    (conns : List ConnectionRecord)
    (hov : s.overwriteResolver = none) (hdef : s.defaultResolver = some r)
    (hr : 100 * (t + 2) ≤ s.defaultRate) :
    runCycle s now (QueryOutcome.success t conns) =
      ({ s with connections := conns
                resolutionCounter := s.resolutionCounter + 1
                rateThresholdBroken := 0
                subsiquentFailures := 0
                lastLookup := now }, true) := by
  simp [runCycle, hov, hdef, not_lt.mpr hr]

/-- Helper: a failed default-backend poll below the failure tolerance only
bumps the failure counter. -/
theorem runCycle_failure_small (s : ConnectionResolver) (r : String) (now : ℚ)
    (hov : s.overwriteResolver = none) (hdef : s.defaultResolver = some r)
    (hc : s.subsiquentFailures + 1 < 3) :
    runCycle s now QueryOutcome.failure =
      ({ s with subsiquentFailures := s.subsiquentFailures + 1
                lastLookup := now }, true) := by
  simp [runCycle, hov, hdef, RESOLVER_FAILURE_TOLERANCE, Nat.not_le.mpr hc]

/-- Helper: a failed default-backend poll reaching the failure tolerance
blacklists the backend, zeroes the counter, and selects the first
non-blacklisted option as the new default. -/
theorem runCycle_failure_switch (s : ConnectionResolver) (r : String) (now : ℚ)
    (hov : s.overwriteResolver = none) (hdef : s.defaultResolver = some r)
    (hc : 3 ≤ s.subsiquentFailures + 1) :
    runCycle s now QueryOutcome.failure =
      ({ s with subsiquentFailures := 0
                resolverBlacklist := s.resolverBlacklist ++ [r]
                defaultResolver := s.resolverOptions.find?
                  (fun x => decide (x ∉ s.resolverBlacklist ++ [r]))
                lastLookup := now }, true) := by
  simp [runCycle, hov, hdef, RESOLVER_FAILURE_TOLERANCE, hc]

/-- C1 counterexample: a fresh resolver (default_rate 5) polling
successfully with fixed query duration t = 1 (so 100 * t = 100 exceeds
default_rate) still has default_rate 5 — not 100 * t + 0.5 — after the
third successful cycle, refuting the claim that the raise starts at
cycle 3. -/
theorem C1_counterexample :
    100 * (1 : ℚ) >
      (ConnectionResolver.init "tor" "" none none ["netstat"]).defaultRate ∧
    (iterCycle (ConnectionResolver.init "tor" "" none none ["netstat"]) 0
        (QueryOutcome.success 1 []) 3).defaultRate = 5 ∧
    (iterCycle (ConnectionResolver.init "tor" "" none none ["netstat"]) 0
        (QueryOutcome.success 1 []) 3).defaultRate ≠ 100 * (1 : ℚ) + 1/2 := by
  refine ⟨by norm_num [ConnectionResolver.init], ?_, ?_⟩ <;>
    norm_num [iterCycle, runCycle, ConnectionResolver.init]

/-- C1 (amended): with the auto-selected backend in place, a debounce
count of 0, and a fixed query duration `t` whose *measured* lookup time
`t + 2` (the stray `time.sleep(2)` on line 255 sits inside the timed
region) breaks the threshold `100 * (t + 2) > default_rate`, the rate is
unchanged on cycles 1-3 and is raised to `100 * (t + 2) + 0.5` on cycle 4;
any successful cycle whose measured time does not break the threshold
resets the debounce count to 0. -/
theorem C1_thm (s : ConnectionResolver) (r : String) (now t : ℚ)
    (conns : List ConnectionRecord)
    (hov : s.overwriteResolver = none) (hdef : s.defaultResolver = some r)
    (hb : s.rateThresholdBroken = 0) (hr : s.defaultRate < 100 * (t + 2)) :
    ((iterCycle s now (QueryOutcome.success t conns) 1).defaultRate = s.defaultRate ∧
     (iterCycle s now (QueryOutcome.success t conns) 2).defaultRate = s.defaultRate ∧
     (iterCycle s now (QueryOutcome.success t conns) 3).defaultRate = s.defaultRate ∧
     (iterCycle s now (QueryOutcome.success t conns) 4).defaultRate =
       100 * (t + 2) + 1/2) ∧
    (∀ (s2 : ConnectionResolver) (r2 : String) (now2 t2 : ℚ)
       (conns2 : List ConnectionRecord),
       s2.overwriteResolver = none → s2.defaultResolver = some r2 →
       100 * (t2 + 2) ≤ s2.defaultRate →
       (runCycle s2 now2 (QueryOutcome.success t2 conns2)).1.rateThresholdBroken = 0) := by
  constructor
  · simp [iterCycle, runCycle, hov, hdef, hb, hr]
  · intro s2 r2 now2 t2 conns2 hov2 hdef2 hr2
    simp [runCycle, hov2, hdef2, not_lt.mpr hr2]

/-- C1 witness: the amended claim at the concrete input of the
counterexample scenario — after cycle 3 the rate is untouched, after
cycle 4 it is `100 * (1 + 2) + 0.5`, and a poll at a rate already at
`300` resets the count. -/
theorem C1_witness :
    ((ConnectionResolver.init "tor" "" none none ["netstat"]).defaultRate <
       100 * ((1 : ℚ) + 2)) ∧
    (iterCycle (ConnectionResolver.init "tor" "" none none ["netstat"]) 0
        (QueryOutcome.success 1 []) 3).defaultRate =
      (ConnectionResolver.init "tor" "" none none ["netstat"]).defaultRate ∧
    (iterCycle (ConnectionResolver.init "tor" "" none none ["netstat"]) 0
        (QueryOutcome.success 1 []) 4).defaultRate = 100 * ((1 : ℚ) + 2) + 1/2 ∧
    (runCycle { ConnectionResolver.init "tor" "" none none ["netstat"] with
                  defaultRate := 300 } 0
        (QueryOutcome.success 1 [])).1.rateThresholdBroken = 0 :=
  ⟨by norm_num [ConnectionResolver.init],
   (C1_thm (ConnectionResolver.init "tor" "" none none ["netstat"]) "netstat" 0 1 []
      rfl rfl rfl (by norm_num [ConnectionResolver.init])).1.2.2.1,
   (C1_thm (ConnectionResolver.init "tor" "" none none ["netstat"]) "netstat" 0 1 []
      rfl rfl rfl (by norm_num [ConnectionResolver.init])).1.2.2.2,
   (C1_thm (ConnectionResolver.init "tor" "" none none ["netstat"]) "netstat" 0 1 []
      rfl rfl rfl (by norm_num [ConnectionResolver.init])).2
     { ConnectionResolver.init "tor" "" none none ["netstat"] with defaultRate := 300 }
     "netstat" 0 1 [] rfl rfl (by norm_num [ConnectionResolver.init])⟩

/-- C2: three consecutive failures of the auto-selected backend append it
to the blacklist, reset the failure counter to 0 and select the first
non-blacklisted entry of the options as the new default (hence none when
everything is blacklisted); a cycle with no backend available only stamps
the attempt time and performs no query. -/
theorem C2_thm (s : ConnectionResolver) (r : String) (now : ℚ)
    (hov : s.overwriteResolver = none) (hdef : s.defaultResolver = some r)
    (hsf : s.subsiquentFailures = 0) :
    ((iterCycle s now QueryOutcome.failure 3).resolverBlacklist =
        s.resolverBlacklist ++ [r] ∧
     (iterCycle s now QueryOutcome.failure 3).subsiquentFailures = 0 ∧
     (iterCycle s now QueryOutcome.failure 3).defaultResolver =
        s.resolverOptions.find? (fun x => decide (x ∉ s.resolverBlacklist ++ [r]))) ∧
    ((∀ x ∈ s.resolverOptions, x ∈ s.resolverBlacklist ++ [r]) →
       (iterCycle s now QueryOutcome.failure 3).defaultResolver = none) ∧
    (∀ (s2 : ConnectionResolver) (now2 : ℚ) (o : QueryOutcome),
       s2.overwriteResolver = none → s2.defaultResolver = none →
       runCycle s2 now2 o = ({ s2 with lastLookup := now2 }, false)) := by
  have hmain : (iterCycle s now QueryOutcome.failure 3).resolverBlacklist =
        s.resolverBlacklist ++ [r] ∧
      (iterCycle s now QueryOutcome.failure 3).subsiquentFailures = 0 ∧
      (iterCycle s now QueryOutcome.failure 3).defaultResolver =
        s.resolverOptions.find? (fun x => decide (x ∉ s.resolverBlacklist ++ [r])) := by
    simp [iterCycle, runCycle, hov, hdef, hsf, RESOLVER_FAILURE_TOLERANCE]
  refine ⟨hmain, fun hall => ?_, fun s2 now2 o hov2 hdef2 => ?_⟩
  · rw [hmain.2.2, List.find?_eq_none]
    intro x hx
    have h2 := hall x hx
    simp at h2 ⊢
    tauto
  · simp [runCycle, hov2, hdef2]

/-- C2 witness: with candidates `["netstat", "ss", "lsof"]` and no prior
blacklist, three failures blacklist `netstat` and switch to `ss`; with
`["netstat"]` only, the default becomes none; and a cycle with no backend
stamps the time and skips the query. -/
theorem C2_witness :
    (iterCycle (ConnectionResolver.init "tor" "" none none ["netstat", "ss", "lsof"])
        0 QueryOutcome.failure 3).resolverBlacklist = ["netstat"] ∧
    (iterCycle (ConnectionResolver.init "tor" "" none none ["netstat", "ss", "lsof"])
        0 QueryOutcome.failure 3).defaultResolver = some "ss" ∧
    (iterCycle (ConnectionResolver.init "tor" "" none none ["netstat"])
        0 QueryOutcome.failure 3).defaultResolver = none ∧
    runCycle { ConnectionResolver.init "tor" "" none none ["netstat"] with
                 defaultResolver := none } 0 QueryOutcome.failure =
      ({ ConnectionResolver.init "tor" "" none none ["netstat"] with
           defaultResolver := none, lastLookup := 0 }, false) :=
  ⟨((C2_thm (ConnectionResolver.init "tor" "" none none ["netstat", "ss", "lsof"])
      "netstat" 0 rfl rfl rfl).1.1).trans (by decide),
   ((C2_thm (ConnectionResolver.init "tor" "" none none ["netstat", "ss", "lsof"])
      "netstat" 0 rfl rfl rfl).1.2.2).trans (by decide),
   (C2_thm (ConnectionResolver.init "tor" "" none none ["netstat"])
      "netstat" 0 rfl rfl rfl).2.1 (by decide),
   (C2_thm (ConnectionResolver.init "tor" "" none none ["netstat"])
      "netstat" 0 rfl rfl rfl).2.2
     { ConnectionResolver.init "tor" "" none none ["netstat"] with
         defaultResolver := none } 0 QueryOutcome.failure rfl rfl⟩

/-- C4 counterexample: after two failures on the auto-selected backend
(counter at 2), setting an overwrite backend and polling *successfully*
through it leaves `subsiquentFailures` at 2 — the reset on line 274 is
guarded by `isDefault` — refuting the claim that every successful cycle
ends with the counter at 0. -/
theorem C4_counterexample :
    (runCycle (ConnectionResolver.setOverwriteResolver
        (iterCycle (ConnectionResolver.init "tor" "" none none ["netstat", "ss"]) 0
          QueryOutcome.failure 2) (some "lsof")) 0
        (QueryOutcome.success 1 [])).2 = true ∧
    (runCycle (ConnectionResolver.setOverwriteResolver
        (iterCycle (ConnectionResolver.init "tor" "" none none ["netstat", "ss"]) 0
          QueryOutcome.failure 2) (some "lsof")) 0
        (QueryOutcome.success 1 [])).1.resolutionCounter = 1 ∧
    (runCycle (ConnectionResolver.setOverwriteResolver
        (iterCycle (ConnectionResolver.init "tor" "" none none ["netstat", "ss"]) 0
          QueryOutcome.failure 2) (some "lsof")) 0
        (QueryOutcome.success 1 [])).1.subsiquentFailures = 2 := by
  refine ⟨?_, ?_, ?_⟩ <;>
    norm_num [iterCycle, runCycle, ConnectionResolver.init,
      ConnectionResolver.setOverwriteResolver, RESOLVER_FAILURE_TOLERANCE]

/-- C4 (amended): `subsiquentFailures` is 0 after every successful cycle
performed by the auto-selected backend, and after every cycle that changed
the default backend; a success through an overwrite backend leaves the
counter untouched (see the counterexample). -/
theorem C4_thm :
    (∀ (s : ConnectionResolver) (r : String) (now t : ℚ)
       (conns : List ConnectionRecord),
       s.overwriteResolver = none → s.defaultResolver = some r →
       (runCycle s now (QueryOutcome.success t conns)).1.subsiquentFailures = 0) ∧
    (∀ (s : ConnectionResolver) (now : ℚ) (o : QueryOutcome),
       (runCycle s now o).1.defaultResolver ≠ s.defaultResolver →
       (runCycle s now o).1.subsiquentFailures = 0) := by
  constructor
  · intro s r now t conns hov hdef
    simp [runCycle, hov, hdef]
  · intro s now o h
    unfold runCycle at h ⊢
    rcases hres : (if s.overwriteResolver.isNone then s.defaultResolver
        else s.overwriteResolver) with _ | r
    · simp only [hres] at h
      simp at h
    · simp only [hres] at h ⊢
      cases o with
      | success t conns =>
        exfalso
        apply h
        simp [apply_ite (fun st : ConnectionResolver => st.defaultResolver)]
      | failure =>
        split_ifs at h ⊢ <;> first | rfl | exact absurd rfl h

/-- C4 witness: a successful default-backend poll on a fresh resolver ends
with the counter at 0, and a failure cycle that switches the backend
(counter at 2 beforehand) also ends with the counter at 0. -/
theorem C4_witness :
    (runCycle (ConnectionResolver.init "tor" "" none none ["netstat"]) 0
        (QueryOutcome.success 1 [])).1.subsiquentFailures = 0 ∧
    ((runCycle { ConnectionResolver.init "tor" "" none none ["netstat", "ss"] with
          subsiquentFailures := 2 } 0 QueryOutcome.failure).1.defaultResolver ≠
       ({ ConnectionResolver.init "tor" "" none none ["netstat", "ss"] with
            subsiquentFailures := 2 } : ConnectionResolver).defaultResolver) ∧
    (runCycle { ConnectionResolver.init "tor" "" none none ["netstat", "ss"] with
          subsiquentFailures := 2 } 0 QueryOutcome.failure).1.subsiquentFailures = 0 :=
  ⟨C4_thm.1 (ConnectionResolver.init "tor" "" none none ["netstat"]) "netstat" 0 1 []
      rfl rfl,
   by decide,
   C4_thm.2 { ConnectionResolver.init "tor" "" none none ["netstat", "ss"] with
        subsiquentFailures := 2 } 0 QueryOutcome.failure (by decide)⟩

/-- C6: for every resolver state, `getConnections` after `stop` returns
the empty list regardless of the cached content, and before halting it
returns (a snapshot copy of) the cached connection list. -/
theorem C6_thm (s : ConnectionResolver) :
    (ConnectionResolver.stop s).getConnections = [] ∧
    (s.halt = false → s.getConnections = s.connections) := by
  constructor
  · simp [ConnectionResolver.stop, ConnectionResolver.getConnections]
  · intro h
    simp [ConnectionResolver.getConnections, h]

/-- C6 witness: a resolver with a nonempty cache — stopped, it reads
empty; not halted, it reads the cache. -/
theorem C6_witness :
    (ConnectionResolver.stop
      { ConnectionResolver.init "tor" "" none none ["netstat"] with
          connections := [⟨"127.0.0.1", 36000, "10.0.0.1", 443⟩] }).getConnections
      = [] ∧
    ({ ConnectionResolver.init "tor" "" none none ["netstat"] with
         connections := [⟨"127.0.0.1", 36000, "10.0.0.1", 443⟩]
       } : ConnectionResolver).getConnections =
      [⟨"127.0.0.1", 36000, "10.0.0.1", 443⟩] :=
  ⟨(C6_thm { ConnectionResolver.init "tor" "" none none ["netstat"] with
      connections := [⟨"127.0.0.1", 36000, "10.0.0.1", 443⟩] }).1,
   (C6_thm { ConnectionResolver.init "tor" "" none none ["netstat"] with
      connections := [⟨"127.0.0.1", 36000, "10.0.0.1", 443⟩] }).2 rfl⟩

/-- C3 counterexample: the very first resolution attempt (failure counter
0, no success ever) with a failed lsof query increments the counter and
leaves the cache untouched, but the returned notify flag is `false` — the
early return on lines 470-475 skips the `notifyAll` block, so `getResults`
waiters are *not* woken and sit out their full `maxWait`. -/
theorem C3_counterexample :
    (AppResolver.init "python").failureCount = 0 ∧
    (resolveRun "42" none (AppResolver.init "python") ["80"]).1.failureCount = 1 ∧
    (resolveRun "42" none (AppResolver.init "python") ["80"]).1.queryResults = [] ∧
    (resolveRun "42" none (AppResolver.init "python") ["80"]).2.2 = false := by
  decide

/-- Helper: an absent lsof result is falsy. -/
theorem pyFalsyLines_none : pyFalsyLines none = true := rfl

/-- Helper: an empty lsof line list is falsy. -/
theorem pyFalsyLines_nil : pyFalsyLines (some []) = true := rfl

/-- C3 (amended): a resolution attempt on a nonempty port list whose lsof
query fails (or yields nothing) before any success was ever recorded
increments the permanent failure counter, leaves the cache untouched and
clears the in-flight flag, but does *not* signal the threads blocked in
`getResults` — they wait out their full `maxWait`. -/
theorem C3_thm (pid : String) (lsofCall : Option (List String)) (s : AppResolver)
    (ports : List String) (hports : ports ≠ [])
    (hnever : s.failureCount ≠ -1) (hlt : s.failureCount < 3)
    (hfl : lsofCall = none ∨ lsofCall = some []) :
    resolveRun pid lsofCall s ports =
      ({ s with failureCount := s.failureCount + 1, isResolving := false },
       true, false) := by
  have hq : queryApplications pid lsofCall { s with isResolving := true } ports =
      .ok ({ s with failureCount := s.failureCount + 1, isResolving := false },
           false) := by
    rcases hfl with h | h <;> subst h <;>
      simp [queryApplications, effectiveLsof, hports, hnever,
        apply_ite pyFalsyLines, pyFalsyLines_none, pyFalsyLines_nil]
  unfold resolveRun
  rw [if_pos hlt, hq]

/-- C3 witness: the amended claim evaluated on a fresh resolver, one
requested port and a failed lsof call. -/
theorem C3_witness :
    (["80"] : List String) ≠ [] ∧
    resolveRun "42" none (AppResolver.init "python") ["80"] =
      ({ AppResolver.init "python" with failureCount := 1, isResolving := false },
       true, false) :=
  ⟨by decide,
   C3_thm "42" none (AppResolver.init "python") ["80"] (by decide) (by decide)
     (by decide) (Or.inl rfl)⟩

/-- Helper: `resolve` with the failure counter at 3 or above spawns no
worker and changes nothing (lines 419-423: the guard is
`failureCount < 3`). -/
theorem resolveRun_refused (pid : String) (lsofCall : Option (List String))
    (s : AppResolver) (ports : List String) (h : 3 ≤ s.failureCount) :
    resolveRun pid lsofCall s ports = (s, false, false) := by
  unfold resolveRun
  rw [if_neg (not_lt.mpr h)]

/-- Helper: a worker run that woke the waiters after a nonempty request
went through the commit block, so it recorded a success
(`failureCount = -1`). -/
theorem queryApplications_notified (pid : String) (lsofCall : Option (List String))
    (s : AppResolver) (ports : List String) (hports : ports ≠ [])
    (s2 : AppResolver)
    (h : queryApplications pid lsofCall s ports = .ok (s2, true)) :
    s2.failureCount = -1 := by
  unfold queryApplications at h
  rw [if_neg hports] at h
  split at h
  · simp at h
  · split at h
    · simp at h
    · simp at h
      rw [← h]

/-- Helper: a worker run starting after a recorded success
(`failureCount = -1`) cannot re-enable failure tracking: whatever the
outcome, the counter stays at -1. -/
theorem queryApplications_neg1 (pid : String) (lsofCall : Option (List String))
    (s : AppResolver) (ports : List String) (h : s.failureCount = -1)
    (res : AppResolver × Bool)
    (hq : queryApplications pid lsofCall s ports = .ok res) :
    res.1.failureCount = -1 := by
  unfold queryApplications at hq
  split at hq
  · simp at hq
    rw [← hq]
    exact h
  · split at hq
    · rename_i hc
      exact absurd h hc.2
    · split at hq
      · simp at hq
      · simp at hq
        rw [← hq]

/-- C5: once the failure counter reaches 3 with no success ever recorded,
every `resolve` call is a silent no-op (no worker spawned, no state
change, no wake-up) and no sequence of further operations changes the
state; conversely a worker that completed a nonempty resolution with a
wake-up has set the counter to -1, and from a state with counter -1 every
`resolve` call spawns a worker and the counter stays -1. -/
theorem C5_thm :
    (∀ (pid : String) (lsofCall : Option (List String)) (s : AppResolver)
       (ports : List String), 3 ≤ s.failureCount →
       resolveRun pid lsofCall s ports = (s, false, false)) ∧
    (∀ (pid : String) (s : AppResolver), 3 ≤ s.failureCount →
       ∀ ops : List AppOp, ops.foldl (appStep pid) s = s) ∧
    (∀ (pid : String) (lsofCall : Option (List String)) (s : AppResolver)
       (ports : List String) (s2 : AppResolver) (spawned : Bool),
       ports ≠ [] → resolveRun pid lsofCall s ports = (s2, spawned, true) →
       s2.failureCount = -1) ∧
    (∀ (pid : String) (lsofCall : Option (List String)) (s : AppResolver)
       (ports : List String), s.failureCount = -1 →
       (resolveRun pid lsofCall s ports).2.1 = true ∧
       (resolveRun pid lsofCall s ports).1.failureCount = -1) := by
  refine ⟨fun pid lsofCall s ports h => resolveRun_refused pid lsofCall s ports h,
    fun pid s h ops => ?_, fun pid lsofCall s ports s2 spawned hports h => ?_,
    fun pid lsofCall s ports h => ?_⟩
  · induction ops with
    | nil => rfl
    | cons op rest ih =>
      rw [List.foldl_cons]
      have hstep : appStep pid s op = s := by
        cases op with
        | resolveOp ports lsofCall =>
          simp [appStep, resolveRun_refused pid lsofCall s ports h]
        | getResultsOp => rfl
      rw [hstep]
      exact ih
  · unfold resolveRun at h
    split at h
    · split at h
      · rename_i s3 notified heq
        simp at h
        rcases h with ⟨h1, _, h3⟩
        subst h1
        exact queryApplications_notified pid lsofCall _ ports hports _ (h3 ▸ heq)
      · simp at h
    · simp at h
  · have hlt : s.failureCount < 3 := by rw [h]; decide
    unfold resolveRun
    rw [if_pos hlt]
    cases hq : queryApplications pid lsofCall { s with isResolving := true } ports with
    | ok res =>
      refine ⟨rfl, ?_⟩
      exact queryApplications_neg1 pid lsofCall _ ports h res hq
    | error e => exact ⟨rfl, h⟩

/-- C5 witness: a resolver with three recorded failures refuses a resolve
call and is inert under an operation sequence; a concrete successful
worker run ends with the counter at -1; and a resolver with counter -1
spawns and keeps -1. -/
theorem C5_witness :
    resolveRun "1" none { AppResolver.init "python" with failureCount := 3 } ["80"] =
      ({ AppResolver.init "python" with failureCount := 3 }, false, false) ∧
    [AppOp.resolveOp ["80"] none, AppOp.getResultsOp].foldl (appStep "1")
      { AppResolver.init "python" with failureCount := 3 } =
      { AppResolver.init "python" with failureCount := 3 } ∧
    ({ AppResolver.init "python" with failureCount := -1, isResolving := false }
        : AppResolver).failureCount = -1 ∧
    (resolveRun "1" none { AppResolver.init "python" with failureCount := -1 }
        ["80"]).2.1 = true ∧
    (resolveRun "1" none { AppResolver.init "python" with failureCount := -1 }
        ["80"]).1.failureCount = -1 :=
  ⟨C5_thm.1 "1" none { AppResolver.init "python" with failureCount := 3 } ["80"]
     (by decide),
   C5_thm.2.1 "1" { AppResolver.init "python" with failureCount := 3 } (by decide)
     [AppOp.resolveOp ["80"] none, AppOp.getResultsOp],
   C5_thm.2.2.1 "1" (some ["x"]) (AppResolver.init "python") ["80"]
     { AppResolver.init "python" with failureCount := -1, isResolving := false }
     true (by decide) (by decide),
   (C5_thm.2.2.2 "1" none { AppResolver.init "python" with failureCount := -1 }
     ["80"] rfl).1,
   (C5_thm.2.2.2 "1" none { AppResolver.init "python" with failureCount := -1 }
     ["80"] rfl).2⟩

/-- C7 counterexample: after three failed resolution attempts the counter
is 3 (reachable from a fresh resolver), and a subsequent `resolve` with an
empty port set is a complete no-op — in particular it does *not* wake any
waiter (the guard on line 419 precedes the empty-port handling), refuting
the claim that the empty-set call always clears the cache and wakes every
waiter. -/
theorem C7_counterexample :
    ((resolveRun "1" none ((resolveRun "1" none ((resolveRun "1" none
        (AppResolver.init "python") ["80"]).1) ["80"]).1) ["80"]).1).failureCount
      = 3 ∧
    (resolveRun "1" none ((resolveRun "1" none ((resolveRun "1" none
        ((resolveRun "1" none (AppResolver.init "python") ["80"]).1) ["80"]).1)
        ["80"]).1) []).2.2 = false ∧
    (resolveRun "1" none ((resolveRun "1" none ((resolveRun "1" none
        ((resolveRun "1" none (AppResolver.init "python") ["80"]).1) ["80"]).1)
        ["80"]).1) []).2.1 = false := by
  decide

/-- C7 (amended): while the resolver has not permanently failed
(failure counter below 3 — in particular on a fresh instance), a `resolve`
with an empty port set clears the cache to the empty mapping, clears the
in-flight flag, and wakes every thread waiting in `getResults`; once the
counter has reached 3 the call is a silent no-op that wakes nobody. -/
theorem C7_thm (pid : String) (lsofCall : Option (List String)) (s : AppResolver)
    (h : s.failureCount < 3) :
    resolveRun pid lsofCall s [] =
      ({ s with queryResults := [], isResolving := false }, true, true) := by
  unfold resolveRun
  rw [if_pos h]
  rfl

/-- C7 witness: the empty-set resolve on a fresh resolver. -/
theorem C7_witness :
    (AppResolver.init "python").failureCount < 3 ∧
    resolveRun "1" none { AppResolver.init "python" with
        queryResults := [("80", [("80", "9051", "tor", "2001")])],
        isResolving := true } [] =
      ({ AppResolver.init "python" with
          queryResults := [], isResolving := false }, true, true) :=
  ⟨by decide,
   C7_thm "1" none { AppResolver.init "python" with
       queryResults := [("80", [("80", "9051", "tor", "2001")])],
       isResolving := true } (by decide)⟩

/-- C9 counterexample: from a fresh resolver, a second `resolve({80})`
issued while the first is still in flight spawns a second worker — the
guard on line 419 consults only `failureCount`, never `isResolving` — so
two resolutions are in flight simultaneously, refuting the claimed
at-most-one-in-flight guarantee. -/
theorem C9_counterexample :
    (spawnResolve ⟨AppResolver.init "python", 0⟩).res.isResolving = true ∧
    (spawnResolve (spawnResolve ⟨AppResolver.init "python", 0⟩)).inFlightWorkers
      = 2 := by
  decide

/-- C9 (amended): `resolve` spawns a fresh worker whenever
`failureCount < 3`, even while a resolution is already in flight, so
overlapping resolutions are possible; however each worker's commit
replaces the cache wholesale with that worker's own computed results
dictionary, so after two overlapping workers both commit, the final cache
equals the full individually-computed result of the one that committed
last — never a field-by-field interleaving of the two. -/
theorem C9_thm :
    (∀ st : AppSched, st.res.failureCount < 3 →
       (spawnResolve st).inFlightWorkers = st.inFlightWorkers + 1 ∧
       (spawnResolve st).res.isResolving = true) ∧
    (∀ (st : AppSched) (r1 r2 : PortMap),
       (workerCommit (workerCommit st r1) r2).res.queryResults = r2 ∧
       (workerCommit (workerCommit st r2) r1).res.queryResults = r1 ∧
       ((workerCommit (workerCommit st r1) r2).res.queryResults = r1 ∨
        (workerCommit (workerCommit st r1) r2).res.queryResults = r2)) := by
  constructor
  · intro st h
    constructor <;> simp [spawnResolve, h]
  · intro st r1 r2
    exact ⟨rfl, rfl, Or.inr rfl⟩

/-- C9 witness: the amended claim at a fresh scheduler and two concrete
result dictionaries. -/
theorem C9_witness :
    ((spawnResolve ⟨AppResolver.init "python", 0⟩).inFlightWorkers = 0 + 1 ∧
     (spawnResolve ⟨AppResolver.init "python", 0⟩).res.isResolving = true) ∧
    (workerCommit (workerCommit ⟨AppResolver.init "python", 2⟩
        [("80", [("80", "9051", "tor", "2001")])]) []).res.queryResults = [] ∧
    ((workerCommit (workerCommit ⟨AppResolver.init "python", 2⟩
         [("80", [("80", "9051", "tor", "2001")])]) []).res.queryResults =
       [("80", [("80", "9051", "tor", "2001")])] ∨
     (workerCommit (workerCommit ⟨AppResolver.init "python", 2⟩
         [("80", [("80", "9051", "tor", "2001")])]) []).res.queryResults = []) :=
  ⟨C9_thm.1 ⟨AppResolver.init "python", 0⟩ (by decide),
   (C9_thm.2 ⟨AppResolver.init "python", 2⟩
      [("80", [("80", "9051", "tor", "2001")])] []).1,
   (C9_thm.2 ⟨AppResolver.init "python", 2⟩
      [("80", [("80", "9051", "tor", "2001")])] []).2.2⟩

/-- C8: the range entry `port.label.100-102 = "foo"` registers the label
"foo" under the (string) ports 100, 101 and 102 and nothing under 99 or
103; an inverted range entry (`200-100`) and a non-numeric single-port
entry are each rejected with a logged message and produce no registry
entries — and no crash, since `conf_handler` is a total function. -/
theorem C8_thm :
    getPortUsage (conf_handler [] "port.label.100-102" "foo").1
      (PyKey.str "100") = some "foo" ∧
    getPortUsage (conf_handler [] "port.label.100-102" "foo").1
      (PyKey.str "101") = some "foo" ∧
    getPortUsage (conf_handler [] "port.label.100-102" "foo").1
      (PyKey.str "102") = some "foo" ∧
    getPortUsage (conf_handler [] "port.label.100-102" "foo").1
      (PyKey.str "99") = none ∧
    getPortUsage (conf_handler [] "port.label.100-102" "foo").1
      (PyKey.str "103") = none ∧
    conf_handler [] "port.label.200-100" "bar" =
      ([], some "Unable to parse port range for entry: port.label.200-100") ∧
    conf_handler [] "port.label.abc" "baz" =
      ([], some "Port value isn't numeric for entry: port.label.abc") := by
  decide

/-- Helper: `dictSet` with a string key preserves the all-string-keys
property of the port-usage dictionary. -/
theorem dictSet_str_keys (m : PortUsageMap) (t v : String)
    (h : ∀ e ∈ m, ∃ u, e.1 = PyKey.str u) :
    ∀ e ∈ dictSet m (PyKey.str t) v, ∃ u, e.1 = PyKey.str u := by
  intro e he
  unfold dictSet at he
  split at he
  · rcases List.mem_map.mp he with ⟨e0, he0, rfl⟩
    split
    · exact ⟨t, rfl⟩
    · exact h e0 he0
  · rcases List.mem_append.mp he with he2 | he2
    · exact h e he2
    · simp at he2
      subst he2
      exact ⟨t, rfl⟩

/-- Helper: a fold of string-keyed `dictSet`s preserves the
all-string-keys property. -/
theorem foldl_dictSet_str_keys (l : List Int) (f : Int → String) (v : String)
    (m : PortUsageMap) (h : ∀ e ∈ m, ∃ u, e.1 = PyKey.str u) :
    ∀ e ∈ l.foldl (fun m2 i => dictSet m2 (PyKey.str (f i)) v) m,
      ∃ u, e.1 = PyKey.str u := by
  induction l generalizing m with
  | nil => exact h
  | cons a l2 ih => exact ih _ (dictSet_str_keys _ _ _ h)

/-- Helper: `conf_handler` only ever inserts string keys. -/
theorem conf_handler_str_keys (m : PortUsageMap) (k v : String)
    (h : ∀ e ∈ m, ∃ u, e.1 = PyKey.str u) :
    ∀ e ∈ (conf_handler m k v).1, ∃ u, e.1 = PyKey.str u := by
  unfold conf_handler
  dsimp only
  split
  · split
    · split
      · exact dictSet_str_keys _ _ _ h
      · exact h
    · split
      · split
        · exact h
        · exact foldl_dictSet_str_keys _ _ _ _ h
      · exact h
  · exact h

/-- Helper: a raw dictionary lookup with an integer key misses every entry
of an all-string-keyed dictionary. -/
theorem dictGet_int_none (m : PortUsageMap) (n : Int)
    (h : ∀ e ∈ m, ∃ u, e.1 = PyKey.str u) :
    dictGet m (PyKey.int n) = none := by
  induction m with
  | nil => rfl
  | cons e rest ih =>
    rcases h e (by simp) with ⟨u, hu⟩
    unfold dictGet
    rw [List.find?_cons_of_neg]
    · exact ih (fun e2 he2 => h e2 (by simp [he2]))
    · simp [hu]

/-- Helper: every `PORT_USAGE` state reachable through `conf_handler` has
string keys only. -/
theorem applyConfig_str_keys (entries : List (String × String)) :
    ∀ e ∈ applyConfig entries, ∃ u, e.1 = PyKey.str u := by
  have hgen : ∀ (l : List (String × String)) (m : PortUsageMap),
      (∀ e ∈ m, ∃ u, e.1 = PyKey.str u) →
      ∀ e ∈ l.foldl (fun m2 e2 => (conf_handler m2 e2.1 e2.2).1) m,
        ∃ u, e.1 = PyKey.str u := by
    intro l
    induction l with
    | nil => exact fun m h => h
    | cons a l2 ih => exact fun m h => ih _ (conf_handler_str_keys _ _ _ h)
  exact hgen entries [] (by intro e he; simp at he)

/-- C10: the port-usage table built by `conf_handler` from any
configuration is keyed by decimal strings, and `getPortUsage` performs a
raw dictionary lookup on its argument, so for every integer argument the
lookup returns none — a label is only found for a string argument. -/
theorem C10_thm (entries : List (String × String)) (n : Int) :
    getPortUsage (applyConfig entries) (PyKey.int n) = none :=
  dictGet_int_none _ n (applyConfig_str_keys entries)
